import Mathlib

/-!
# Verification of the Personal AI Agent for Gmail and Calendar backend

This file gives a shallow embedding, in Lean 4, of the parts of the
`backend/` Python sources that the specification's claims are about:

* `backend/agent.py` — the orchestrator `handle_chat` (its iteration loop,
  argument binding, and `_build_context`);
* `backend/action.py` — `parse_function_call` of the modular Action Executor;
* `backend/calendar_client.py` — `check_free_slots`;
* `backend/mcp_tools.py` — the ten tool-server wrappers;
* `backend/memory.py` — `MemoryManager.add`;
* `backend/rag.py` — `_clean_text`, `chunk_text`, `index_document`.

External library calls (the JSON decoder, the Gmail/Calendar/LLM/embedding
services, ISO date-time parsing) are modelled as explicit parameters or as
already-decoded values; everything the repository's own code computes is
translated directly.  Python dicts are modelled as insertion-ordered
association lists, Python exceptions as `Except`/`Option` results.
-/

set_option autoImplicit false

/-- A JSON value, as produced by Python's `json.loads`.  Numbers are modelled
as integers (the stored tool results the code decodes only carry counts and
strings). -/
inductive Json where
  | null : Json
  | bool (b : Bool) : Json
  | str (s : String) : Json
  | num (n : Int) : Json
  | arr (xs : List Json) : Json
  | obj (fields : List (String × Json)) : Json

/-- `fields.get(key)` on a decoded JSON object: first binding wins,
like a Python dict built by `json.loads`. -/
def Json.lookupField : List (String × Json) → String → Option Json
  | [], _ => none
  | (k, v) :: rest, key => if k = key then some v else Json.lookupField rest key

/-- Python's `parsed.get(key, default)`, defined only on objects; on any other
JSON value Python would raise `AttributeError`, modelled as `Except.error`. -/
def Json.pyGet (j : Json) (key : String) (dflt : Json) : Except String Json :=
  match j with
  | .obj fields => .ok ((Json.lookupField fields key).getD dflt)
  | _ => .error "AttributeError"

/-- A Python run-time value as built by the argument-binding code
(`agent.py` lines 356–392 and `action.py` lines 55–89). -/
inductive PyVal where
  | pyInt (n : Int) : PyVal
  | pyFloat (mantissa : Int) (shift : Nat) : PyVal
  | pyStr (s : String) : PyVal
  | pyList (xs : List String) : PyVal
  | pyJson (j : Json) : PyVal
  | pyNone : PyVal

/-! ### Python string primitives

The embeddings below re-implement, by structural recursion over character
lists, the handful of Python string operations the sources use
(`strip`, `split`, `"|".split`-style separator splits, `" ".join`,
`startswith`/`endswith`, slicing), so that every definition evaluates
inside the kernel. -/

/-- Python's `str.strip()` on a character list: drop leading and trailing
whitespace. -/
def pyTrimChars (cs : List Char) : List Char :=
  ((cs.dropWhile Char.isWhitespace).reverse.dropWhile Char.isWhitespace).reverse

/-- Python's `str.strip()`. -/
def pyTrim (s : String) : String := String.mk (pyTrimChars s.data)

/-- Worker for `pySplit`: `acc` holds the current token, reversed. -/
def pySplitWsAux : List Char → List Char → List String
  | acc, [] => if acc.isEmpty then [] else [String.mk acc.reverse]
  | acc, c :: rest =>
    if c.isWhitespace then
      if acc.isEmpty then pySplitWsAux [] rest
      else String.mk acc.reverse :: pySplitWsAux [] rest
    else pySplitWsAux (c :: acc) rest

/-- Python's no-argument `str.split()`: split on whitespace runs, dropping
empty tokens. -/
def pySplit (s : String) : List String := pySplitWsAux [] s.data

/-- Worker for `splitChar`: `acc` holds the current piece, reversed. -/
def splitCharAux (sep : Char) : List Char → List Char → List String
  | acc, [] => [String.mk acc.reverse]
  | acc, c :: rest =>
    if c = sep then String.mk acc.reverse :: splitCharAux sep [] rest
    else splitCharAux sep (c :: acc) rest

/-- Python's `str.split(sep)` for a one-character separator (the sources
only split on `"|"` and `","`): empty pieces are kept. -/
def splitChar (s : String) (sep : Char) : List String := splitCharAux sep [] s.data

/-- Python's `" ".join(words)`. -/
def joinSpace : List String → String
  | [] => ""
  | [w] => w
  | w :: ws => w ++ " " ++ joinSpace ws

/-- Python's `str.startswith(pre)`. -/
def pyStartsWith (s pre : String) : Bool := pre.data.isPrefixOf s.data

/-- Python's `str.endswith(suf)`. -/
def pyEndsWith (s suf : String) : Bool := suf.data.reverse.isPrefixOf s.data.reverse

/-- Fold a digit string into a natural number; `none` if any character is not
a decimal digit or the string is empty. -/
def digitsToNat (cs : List Char) : Option Nat :=
  match cs with
  | [] => none
  | _ =>
    cs.foldl
      (fun acc c =>
        match acc with
        | none => none
        | some n => if c.isDigit then some (n * 10 + (c.toNat - '0'.toNat)) else none)
      (some 0)

/-- Python's `int(value)` on a decimal string: surrounding whitespace is
ignored, an optional single sign is allowed, and anything else
(including a fractional part) raises `ValueError`, modelled as `none`. -/
def pyParseInt (s : String) : Option Int :=
  let cs := pyTrimChars s.data
  match cs with
  | '-' :: rest => (digitsToNat rest).map (fun n => -(n : Int))
  | '+' :: rest => (digitsToNat rest).map (fun n => (n : Int))
  | _ => (digitsToNat cs).map (fun n => (n : Int))

/-- Split a character list at the first `'.'`. -/
def splitAtDot (cs : List Char) : List Char × Option (List Char) :=
  match cs with
  | [] => ([], none)
  | c :: rest =>
    if c = '.' then ([], some rest)
    else
      let (intPart, fracPart) := splitAtDot rest
      (c :: intPart, fracPart)

/-- Python's `float(value)` on a plain decimal string (optional sign, digits,
optional single `'.'` with digits on at least one side): the exact decimal
the string denotes, as a pair `(m, k)` standing for `m / 10^k` (the further
rounding to a machine double is external and value-preserving at the
magnitudes the agent passes).  Other spellings raise `ValueError`,
modelled as `none`. -/
def pyParseFloat (s : String) : Option (Int × Nat) :=
  let cs := pyTrimChars s.data
  let (sign, body) :=
    match cs with
    | '-' :: rest => ((-1 : Int), rest)
    | '+' :: rest => ((1 : Int), rest)
    | _ => ((1 : Int), cs)
  match splitAtDot body with
  | (intPart, none) => (digitsToNat intPart).map (fun n => ((sign * n : Int), 0))
  | ([], some []) => none
  | (intPart, some fracPart) =>
    if intPart = [] then
      (digitsToNat fracPart).map
        (fun f => ((sign * f : Int), fracPart.length))
    else
      match digitsToNat intPart with
      | none => none
      | some i =>
        match fracPart with
        | [] => some ((sign * i : Int), 0)
        | _ =>
          (digitsToNat fracPart).map
            (fun f => ((sign * (i * 10 ^ fracPart.length + f) : Int), fracPart.length))

/-- Python's `value.strip('[]')`: remove every leading and trailing `'['` or
`']'` character. -/
def stripSquare (s : String) : String :=
  let isBr : Char → Bool := fun c => c = '[' ∨ c = ']'
  String.mk (((s.data.dropWhile isBr).reverse.dropWhile isBr).reverse)

/-- A tool descriptor as the orchestrator sees it: name plus the
`inputSchema` `properties` map — parameter names with their declared type
strings, in declaration order. -/
structure ToolDescr where
  name : String
  props : List (String × String)

/-- The per-turn tool-results map.  Keys are tool names (insertion-ordered,
at most one entry per name); each value is the outcome of `json.loads` on the
stored raw result — `none` models a result that fails to decode (or an empty
content list, the `IndexError` case). -/
abbrev ToolResults := List (String × Option Json)

/-- `tool_name in tool_results` (Python key membership). -/
def ToolResults.hasKey (tr : ToolResults) (name : String) : Bool :=
  tr.any (fun p => p.1 = name)

/-- `tool_results[name]` (first binding, as in a Python dict). -/
def ToolResults.getKey (tr : ToolResults) (name : String) : Option (Option Json) :=
  match tr with
  | [] => none
  | (k, v) :: rest => if k = name then some v else ToolResults.getKey rest name

/-- `tool_results[name] = v`: an existing key keeps its position, a new key
is appended — Python dict update semantics. -/
def ToolResults.setKey (tr : ToolResults) (name : String) (v : Option Json) : ToolResults :=
  if tr.any (fun p => p.1 = name) then
    tr.map (fun p => if p.1 = name then (name, v) else p)
  else
    tr ++ [(name, v)]

/-! ## `action.py` — `parse_function_call` (Action Executor)

The JSON decoder applied to positional text values is an external library
call; it is passed in as an explicit `decode` function.  The stored tool
results are already modelled as decode outcomes (`Option Json`). -/

/-- The injection scan of `action.py` lines 60–69: walk previous tool results
in insertion order; a result that fails to decode raises
(`json.decoder.JSONDecodeError`, modelled as `.error`); the first decoded
object whose top-level map contains `pname` supplies the value; if none
matches, the parameter is left unset (`none`). -/
def injectFromResults (tr : ToolResults) (pname : String) : Except String (Option Json) :=
  match tr with
  | [] => .ok none
  | (_, parsed?) :: rest =>
    match parsed? with
    | none => .error "JSONDecodeError"
    | some parsed =>
      match parsed with
      | .obj fields =>
        match Json.lookupField fields pname with
        | some v => .ok (some v)
        | none => injectFromResults rest pname
      | _ => injectFromResults rest pname

/-- Argument binding of `action.py` lines 55–89: iterate the declared
parameters in schema order, consuming positional values left-to-right and
coercing them by declared type; with no values left, `array`/`object`
parameters are filled from previous tool results (if possible) and every
other type is skipped. -/
def bindArgsAction (decode : String → Option Json) (tr : ToolResults) :
    List (String × String) → List String → Except String (List (String × PyVal))
  | [], _ => .ok []
  | (pname, ptype) :: restProps, params =>
    if params.isEmpty then
      if ptype = "array" ∨ ptype = "object" then
        match injectFromResults tr pname with
        | .error e => .error e
        | .ok (some v) =>
          (bindArgsAction decode tr restProps params).map
            (fun rest => (pname, PyVal.pyJson v) :: rest)
        | .ok none => bindArgsAction decode tr restProps params
      else
        bindArgsAction decode tr restProps params
    else
      match params with
      | [] => .ok []
      | value :: restParams =>
        let bound : Except String PyVal :=
          if ptype = "integer" then
            match pyParseInt value with
            | some n => .ok (PyVal.pyInt n)
            | none => .error ("invalid literal for int(): " ++ value)
          else if ptype = "number" then
            match pyParseFloat value with
            | some (m, k) => .ok (PyVal.pyFloat m k)
            | none => .error ("could not convert string to float: " ++ value)
          else if ptype = "array" ∨ ptype = "object" then
            match decode value with
            | some j => .ok (PyVal.pyJson j)
            | none => .ok (PyVal.pyList (splitChar (stripSquare value) ','))
          else
            .ok (PyVal.pyStr value)
        match bound with
        | .error e => .error e
        | .ok v =>
          (bindArgsAction decode tr restProps restParams).map
            (fun rest => (pname, v) :: rest)

/-- `action.py` `parse_function_call`: check the `FUNCTION_CALL:` prefix,
split off the tool name and positional values, look the tool up in the
catalogue, and bind arguments against its schema. -/
def parse_function_call (decode : String → Option Json) (tools : List ToolDescr)
    (tr : ToolResults) (response : String) :
    Except String (String × List (String × PyVal)) :=
  if ¬ pyStartsWith response "FUNCTION_CALL:" then
    .error "Not a valid FUNCTION_CALL"
  else
    let function_info := String.mk (response.data.drop "FUNCTION_CALL:".data.length)
    let parts := (splitChar function_info '|').map pyTrim
    match parts with
    | [] => .error "Not a valid FUNCTION_CALL"
    | func_name :: params =>
      match tools.find? (fun t => t.name = func_name) with
      | none => .error ("Unknown tool: " ++ func_name)
      | some tool =>
        (bindArgsAction decode tr tool.props params).map
          (fun args => (func_name, args))

/-! ## `agent.py` — the orchestrator actually imported by `server.py`

`handle_chat` drives the iteration loop; `_build_context` derives the
side-channel context payload; the inline argument-binding code (lines
356–392) is embedded as `bindArgsAgent`.  The language model is external:
each cycle's classified response is supplied by a decision oracle. -/

/-- `agent.py` line 19. -/
def max_iterations : Nat := 5

/-- The `TOOL_TO_CONTEXT` table of `_build_context` (`agent.py` lines
62–73), in its literal declaration order. -/
def TOOL_TO_CONTEXT : List (String × String) :=
  [ ("get_todays_events", "calendar_events"),
    ("get_events_for_date", "calendar_events"),
    ("check_free_slots", "free_slots"),
    ("create_event", "event_created"),
    ("get_unread_emails_today", "email_list"),
    ("get_emails_by_date_range", "email_list"),
    ("search_emails", "email_list"),
    ("get_email_thread", "email_thread"),
    ("get_email_attachments", "email_attachments"),
    ("send_email", "email_sent") ]

/-- The selection loop of `_build_context` (`agent.py` lines 76–79): walk
`TOOL_TO_CONTEXT` in declaration order and remember the last name present in
the results map. -/
def lastContextTool (tool_results : ToolResults) : Option String :=
  TOOL_TO_CONTEXT.foldl
    (fun last_tool p =>
      if tool_results.hasKey p.1 then some p.1 else last_tool)
    none

/-- A context payload `{"type": ..., "data": ...}`. -/
structure ChatContext where
  type : String
  data : Json

/-- `_build_context` (`agent.py` lines 56–113).  Returns `.ok none` when no
recognized tool is present or the winning result fails to decode; the
projection `parsed.get(...)` raises `AttributeError` when the decoded value
is not an object, which (as in Python) escapes `_build_context` itself and
is modelled as `.error`. -/
def _build_context (tool_results : ToolResults) : Except String (Option ChatContext) :=
  match lastContextTool tool_results with
  | none => .ok none
  | some last_tool =>
    match tool_results.getKey last_tool with
    | none => .ok none
    | some none => .ok none
    | some (some parsed) =>
      let context_type := ((TOOL_TO_CONTEXT.lookup last_tool).getD "")
      if context_type = "calendar_events" then
        (parsed.pyGet "events" (.arr [])).map
          (fun data => some ⟨context_type, data⟩)
      else if context_type = "email_list" then
        (parsed.pyGet "emails" (.arr [])).map
          (fun data => some ⟨context_type, data⟩)
      else
        .ok (some ⟨context_type, parsed⟩)

/-- The injection scan of `agent.py` lines 374–385 for an `array`/`object`
parameter: parse every previous tool result in insertion order until one is
injected (a decode failure before that raises); an object containing the
parameter name supplies the value. -/
def injectFromResultsAgent (tr : ToolResults) (pname : String) :
    Except String (Option Json) :=
  match tr with
  | [] => .ok none
  | (_, parsed?) :: rest =>
    match parsed? with
    | none => .error "JSONDecodeError"
    | some parsed =>
      match parsed with
      | .obj fields =>
        match Json.lookupField fields pname with
        | some v => .ok (some v)
        | none => injectFromResultsAgent rest pname
      | _ => injectFromResultsAgent rest pname

/-- The inline argument binding of `handle_chat` (`agent.py` lines 356–392):
unlike `action.py`, exhausting the positional values at a parameter whose
declared type is not `array`/`object` raises
`"Not enough parameters provided for <tool>"`; an `array`/`object` parameter
always tries injection from previous tool results first, and falls back to
`value.strip('[]').split(',')` for string values (the exhausted case carries
`value = None`, which is bound as-is). -/
def bindArgsAgent (func_name : String) (tr : ToolResults) :
    List (String × String) → List String → Except String (List (String × PyVal))
  | [], _ => .ok []
  | (pname, ptype) :: restProps, params =>
    let valueStep : Except String (Option String × List String) :=
      if params.isEmpty then
        if ptype = "array" ∨ ptype = "object" then .ok (none, params)
        else .error ("Not enough parameters provided for " ++ func_name)
      else
        match params with
        | [] => .ok (none, [])
        | v :: restParams => .ok (some v, restParams)
    match valueStep with
    | .error e => .error e
    | .ok (value?, restParams) =>
      let bound : Except String PyVal :=
        if ptype = "integer" then
          match value? with
          | none => .error "int() argument must not be None"
          | some value =>
            match pyParseInt value with
            | some n => .ok (PyVal.pyInt n)
            | none => .error ("invalid literal for int(): " ++ value)
        else if ptype = "number" then
          match value? with
          | none => .error "float() argument must not be None"
          | some value =>
            match pyParseFloat value with
            | some (m, k) => .ok (PyVal.pyFloat m k)
            | none => .error ("could not convert string to float: " ++ value)
        else if ptype = "array" ∨ ptype = "object" then
          match injectFromResultsAgent tr pname with
          | .error e => .error e
          | .ok (some v) => .ok (PyVal.pyJson v)
          | .ok none =>
            match value? with
            | some value => .ok (PyVal.pyList (splitChar (stripSquare value) ','))
            | none => .ok PyVal.pyNone
        else
          match value? with
          | some value => .ok (PyVal.pyStr value)
          | none => .ok (PyVal.pyStr "None")
      match bound with
      | .error e => .error e
      | .ok v =>
        (bindArgsAgent func_name tr restProps restParams).map
          (fun rest => (pname, v) :: rest)

/-- One entry of the orchestrator's `iteration_response` log.  The Python
code stores formatted strings; the argument/result rendering (Python `str()`
of dicts) is external formatting, so entries are kept structured: which
iteration, which tool, and either the stored result or the caught error
message. -/
inductive LogEntry where
  | step (iteration : Nat) (tool : String) (result : Option Json) : LogEntry
  | failure (iteration : Nat) (msg : String) : LogEntry

/-- The outcome of executing one `FUNCTION_CALL` action inside the `try`
block of `agent.py` lines 341–436: either the tool ran and its (decoded)
result is stored, or some exception was raised (unknown tool, binding
failure, transport failure) and caught at line 430. -/
inductive ExecOutcome where
  | success (result : Option Json) : ExecOutcome
  | failure (msg : String) : ExecOutcome

/-- One cycle's classified model response, as seen by the loop body of
`handle_chat` (`agent.py` lines 314–446): the model call may raise
(`llmFailure`, the `break` at line 328), or return a `FUNCTION_CALL:` line
(paired with what executing it does), a `FINAL_ANSWER:` line, or anything
else (which the loop silently skips, only advancing the counter). -/
inductive LlmStep where
  | llmFailure : LlmStep
  | functionCall (name : String) (outcome : ExecOutcome) : LlmStep
  | finalAnswer (text : String) : LlmStep
  | other (text : String) : LlmStep

/-- The mutable per-turn state of `handle_chat`: the global `iteration`
counter, the per-turn `tool_results` map and the `iteration_response` log. -/
structure TurnState where
  iteration : Nat
  tool_results : ToolResults
  log : List LogEntry

/-- The returned chat payload `{"reply": ..., "context": ...}`. -/
structure ChatReply where
  reply : String
  context : Option ChatContext

/-- `agent.py` line 450: the reply returned when the loop exhausts its
iterations (or `break`s out) without a `FINAL_ANSWER`. -/
def exhaustedReply : String :=
  "Sorry, I couldn't complete your request. Please try again."

/-- Build the returned payload for a terminal state: `_build_context` runs
on the gathered tool results; if it raises, the exception reaches the outer
handler of `agent.py` line 452, which returns a "Something went wrong" reply
with no context. -/
def finishTurn (reply : String) (tool_results : ToolResults) : ChatReply :=
  match _build_context tool_results with
  | .ok ctx => ⟨reply, ctx⟩
  | .error m => ⟨"Something went wrong: " ++ m, none⟩

/-- `FINAL_ANSWER` post-processing (`agent.py` lines 439–441): strip the
prefix remainder, and one layer of surrounding brackets if present. -/
def stripFinalAnswer (s : String) : String :=
  let answer := pyTrim s
  if pyStartsWith answer "[" ∧ pyEndsWith answer "]" then
    let inner := answer.data.drop 1
    pyTrim (String.mk (inner.take (inner.length - 1)))
  else
    answer

/-- The `while iteration < max_iterations` loop of `handle_chat`
(`agent.py` lines 303–450), with `fuel = max_iterations - iteration`.
Success stores the result under the tool name and advances the counter;
an execution failure logs the error and `break`s; an LLM failure `break`s;
a `FINAL_ANSWER:` line returns directly; any other line only advances the
counter.  Falling out of the loop returns the fixed apology reply. -/
def chatLoop (steps : Nat → LlmStep) : Nat → TurnState → TurnState × ChatReply
  | 0, st => (st, finishTurn exhaustedReply st.tool_results)
  | fuel + 1, st =>
    match steps st.iteration with
    | .llmFailure => (st, finishTurn exhaustedReply st.tool_results)
    | .finalAnswer text => (st, finishTurn (stripFinalAnswer text) st.tool_results)
    | .functionCall name (.success res) =>
      chatLoop steps fuel
        { iteration := st.iteration + 1,
          tool_results := st.tool_results.setKey name res,
          log := st.log ++ [LogEntry.step st.iteration name res] }
    | .functionCall _ (.failure msg) =>
      let st' := { st with log := st.log ++ [LogEntry.failure st.iteration msg] }
      (st', finishTurn exhaustedReply st'.tool_results)
    | .other _ => chatLoop steps fuel { st with iteration := st.iteration + 1 }

/-- One `handle_chat` turn (`agent.py` lines 116–458), starting from the
reset state, returning both the final loop state (for observation) and the
returned payload. -/
def handle_chat_run (steps : Nat → LlmStep) : TurnState × ChatReply :=
  chatLoop steps max_iterations ⟨0, [], []⟩

/-- The payload `handle_chat` returns to `server.py`. -/
def handle_chat (steps : Nat → LlmStep) : ChatReply :=
  (handle_chat_run steps).2

/-! ## `calendar_client.py` — `check_free_slots`

Event times come back from the provider as ISO strings; the code parses
them with `datetime.fromisoformat`, strips the timezone, and compares them
against the target date's 08:00/18:00.  That external parse is modelled by
giving each event its (naive) start/end as minutes relative to the target
date's midnight — `none` for a missing or unparseable time (both make the
code `continue`). -/

/-- One event as `check_free_slots` consumes it: parsed naive start/end in
minutes from the target date's midnight (possibly negative or beyond 1440
for multi-day events), plus its title. -/
structure CalEvent where
  start? : Option Int
  stop? : Option Int
  summary : String

/-- 08:00 as minutes (`day_start`, `calendar_client.py` line 155). -/
def workDayStart : Int := 480

/-- 18:00 as minutes (`day_end`, `calendar_client.py` line 156). -/
def workDayEnd : Int := 1080

/-- `calendar_client.py` lines 159–182: keep events with both times, clamp
each to the 08:00–18:00 window, and drop intervals that are degenerate after
clamping. -/
def busyBlocksOf (events : List CalEvent) : List (Int × Int × String) :=
  events.filterMap
    (fun ev =>
      match ev.start?, ev.stop? with
      | some s, some e =>
        let s' := max s workDayStart
        let e' := min e workDayEnd
        if s' < e' then some (s', e', ev.summary) else none
      | _, _ => none)

/-- `busy_blocks.sort(key=lambda b: b[0])` (line 185): Python's sort is
stable, so it is modelled by a stable sort on the start time. -/
def sortBusy (blocks : List (Int × Int × String)) : List (Int × Int × String) :=
  List.insertionSort (fun a b => a.1 ≤ b.1) blocks

/-- The forward sweep of lines 188–203: walk the sorted busy blocks from
08:00, emitting a free interval before each later-starting block, and a
final free interval up to 18:00 if any room remains. -/
def sweepFree : Int → List (Int × Int × String) → List (Int × Int)
  | current, [] => if current < workDayEnd then [(current, workDayEnd)] else []
  | current, (s, e, _) :: rest =>
    (if current < s then [(current, s)] else []) ++ sweepFree (max current e) rest

/-- `strftime("%I:%M %p")`: zero-padded 12-hour clock rendering of a
minutes-of-day value. -/
def fmt12 (m : Int) : String :=
  let t := m.toNat
  let h24 := t / 60
  let mins := t % 60
  let h12 := if h24 % 12 = 0 then 12 else h24 % 12
  let pad2 : Nat → String := fun n => if n < 10 then "0" ++ toString n else toString n
  pad2 h12 ++ ":" ++ pad2 mins ++ " " ++ (if h24 < 12 then "AM" else "PM")

/-- `calendar_client.py` `check_free_slots` (lines 140–220), given the
day's events: the returned `{"date", "busy", "free"}` dict, with both lists
rendered in 12-hour clock form. -/
def check_free_slots (date : String) (events : List CalEvent) : List (String × Json) :=
  let busy_blocks := sortBusy (busyBlocksOf events)
  let free_slots := (sweepFree workDayStart busy_blocks).map
    (fun p => Json.obj [("start", .str (fmt12 p.1)), ("end", .str (fmt12 p.2))])
  let busy_formatted := busy_blocks.map
    (fun b => Json.obj
      [("start", .str (fmt12 b.1)), ("end", .str (fmt12 b.2.1)), ("event", .str b.2.2)])
  [("date", .str date), ("busy", .arr busy_formatted), ("free", .arr free_slots)]

/-! ## `mcp_tools.py` — the tool-server boundary wrappers

Each `@mcp.tool()` wrapper calls its `gmail_client`/`calendar_client`
delegate and catches `FileNotFoundError` (the missing-credential error) and
every other `Exception` separately.  The delegate call itself is external
I/O, so its outcome is a parameter; the success payloads use the delegates'
actual return shapes (`gmail_client.py`/`calendar_client.py`), which never
contain an `"error"` key. -/

/-- The outcome of one delegate call: a normal return, a
`FileNotFoundError` (missing `token.json`), or any other exception. -/
inductive Delegate (α : Type) where
  | ok (v : α) : Delegate α
  | fileNotFound (msg : String) : Delegate α
  | exn (msg : String) : Delegate α

/-- Whether the delegate returned normally. -/
def Delegate.isOk {α : Type} : Delegate α → Bool
  | .ok _ => true
  | _ => false

/-- Whether a returned map carries an `"error"` key. -/
def hasErrorKey (m : List (String × Json)) : Bool :=
  m.any (fun p => p.1 = "error")

/-- `mcp_tools.py` lines 31–50, `get_unread_emails_today`. -/
def mcp_get_unread_emails_today (o : Delegate (List Json)) : List (String × Json) :=
  match o with
  | .ok emails => [("emails", .arr emails)]
  | .fileNotFound m => [("error", .str m), ("emails", .arr [])]
  | .exn m => [("error", .str ("Gmail API error: " ++ m)), ("emails", .arr [])]

/-- `mcp_tools.py` lines 53–78, `get_emails_by_date_range`. -/
def mcp_get_emails_by_date_range (start_date end_date : String)
    (o : Delegate (List Json)) : List (String × Json) :=
  match o with
  | .ok emails =>
    [("emails", .arr emails), ("start_date", .str start_date), ("end_date", .str end_date)]
  | .fileNotFound m => [("error", .str m), ("emails", .arr [])]
  | .exn m => [("error", .str ("Gmail API error: " ++ m)), ("emails", .arr [])]

/-- `mcp_tools.py` lines 81–110, `search_emails`. -/
def mcp_search_emails (query : String) (o : Delegate (List Json)) : List (String × Json) :=
  match o with
  | .ok emails => [("emails", .arr emails), ("query", .str query)]
  | .fileNotFound m => [("error", .str m), ("emails", .arr [])]
  | .exn m => [("error", .str ("Gmail API error: " ++ m)), ("emails", .arr [])]

/-- The dict `gmail_client.get_email_thread` returns on success
(`gmail_client.py` lines 282–287). -/
structure ThreadPayload where
  thread_id : String
  subject : String
  messages : List Json

/-- `mcp_tools.py` lines 113–139, `get_email_thread`. -/
def mcp_get_email_thread (o : Delegate ThreadPayload) : List (String × Json) :=
  match o with
  | .ok t =>
    [("thread_id", .str t.thread_id), ("subject", .str t.subject),
     ("message_count", .num t.messages.length), ("messages", .arr t.messages)]
  | .fileNotFound m => [("error", .str m), ("messages", .arr [])]
  | .exn m => [("error", .str ("Gmail API error: " ++ m)), ("messages", .arr [])]

/-- The dict `gmail_client.get_email_attachments` returns on success
(`gmail_client.py` lines 418–424). -/
structure AttachmentsPayload where
  message_id : String
  subject : String
  sender : String
  attachments : List Json

/-- `mcp_tools.py` lines 142–169, `get_email_attachments`. -/
def mcp_get_email_attachments (o : Delegate AttachmentsPayload) : List (String × Json) :=
  match o with
  | .ok a =>
    [("message_id", .str a.message_id), ("subject", .str a.subject),
     ("from", .str a.sender), ("attachment_count", .num a.attachments.length),
     ("attachments", .arr a.attachments)]
  | .fileNotFound m => [("error", .str m), ("attachments", .arr [])]
  | .exn m => [("error", .str ("Gmail API error: " ++ m)), ("attachments", .arr [])]

/-- `mcp_tools.py` lines 172–197, `send_email`; on success the delegate
(`gmail_client.py` lines 454–459) returns the sent status with the
provider-assigned message id. -/
def mcp_send_email (toAddr subject : String) (o : Delegate String) : List (String × Json) :=
  match o with
  | .ok message_id =>
    [("status", .str "sent"), ("to", .str toAddr), ("subject", .str subject),
     ("message_id", .str message_id)]
  | .fileNotFound m => [("error", .str m), ("status", .str "failed")]
  | .exn m => [("error", .str ("Gmail API error: " ++ m)), ("status", .str "failed")]

/-- `mcp_tools.py` lines 202–221, `get_todays_events`. -/
def mcp_get_todays_events (o : Delegate (List Json)) : List (String × Json) :=
  match o with
  | .ok events => [("events", .arr events)]
  | .fileNotFound m => [("error", .str m), ("events", .arr [])]
  | .exn m => [("error", .str ("Calendar API error: " ++ m)), ("events", .arr [])]

/-- `mcp_tools.py` lines 224–241, `get_events_for_date`. -/
def mcp_get_events_for_date (o : Delegate (List Json)) : List (String × Json) :=
  match o with
  | .ok events => [("events", .arr events)]
  | .fileNotFound m => [("error", .str m), ("events", .arr [])]
  | .exn m => [("error", .str ("Calendar API error: " ++ m)), ("events", .arr [])]

/-- `mcp_tools.py` lines 244–266, `check_free_slots`; on success the
delegate returns the `{"date", "busy", "free"}` dict computed by
`calendar_client.check_free_slots`, modelled above. -/
def mcp_check_free_slots (date : String) (o : Delegate (List CalEvent)) :
    List (String × Json) :=
  match o with
  | .ok events => check_free_slots date events
  | .fileNotFound m =>
    [("error", .str m), ("date", .str date), ("busy", .arr []), ("free", .arr [])]
  | .exn m =>
    [("error", .str ("Calendar API error: " ++ m)), ("date", .str date),
     ("busy", .arr []), ("free", .arr [])]

/-- The creation confirmation `calendar_client.create_event` returns on
success (`calendar_client.py` lines 270–278): the provider-echoed summary,
viewing link and attendee list. -/
structure CreatedPayload where
  summary : String
  link : String
  attendees : List String

/-- `mcp_tools.py` lines 269–300, `create_event`. -/
def mcp_create_event (date start_time end_time : String)
    (o : Delegate CreatedPayload) : List (String × Json) :=
  match o with
  | .ok c =>
    [("status", .str "created"), ("summary", .str c.summary),
     ("start", .str start_time), ("end", .str end_time), ("date", .str date),
     ("link", .str c.link), ("attendees", .arr (c.attendees.map Json.str))]
  | .fileNotFound m => [("error", .str m), ("status", .str "failed")]
  | .exn m => [("error", .str ("Calendar API error: " ++ m)), ("status", .str "failed")]

/-! ## `memory.py` — `MemoryManager`

The embedding service call in `add` is external; its outcome (a vector of
some dimension, or an exception) is a parameter.  A FAISS flat index is
characterized by its dimension and the number of stored vectors; its `add`
raises exactly when the new vector's dimension differs from the index's. -/

/-- A stored `MemoryItem` (`memory.py` lines 24–36). -/
structure MemoryItem where
  text : String
  type : String := "tool_output"
  timestamp : Option String := none
  tool_name : Option String := none
  user_query : Option String := none
  tags : List String := []
  session_id : Option String := none

/-- The outcome of `self._get_embedding(item.text)`: a vector of dimension
`dim`, or an exception (service unreachable, non-2xx response, …). -/
inductive EmbedOutcome where
  | ok (dim : Nat) : EmbedOutcome
  | failure : EmbedOutcome

/-- The `MemoryManager`'s mutable state (`memory.py` lines 46–49): the
similarity index (its dimension, `none` while `self.index is None`, and its
vector count) plus the parallel `data` and `embeddings` lists. -/
structure MemoryManager where
  indexDim : Option Nat
  indexNtotal : Nat
  data : List MemoryItem
  embeddings : List Nat

/-- `MemoryManager.__init__`. -/
def MemoryManager.init : MemoryManager := ⟨none, 0, [], []⟩

/-- `MemoryManager.add` (`memory.py` lines 60–74): on an embedding failure
the `except` leaves everything unchanged; otherwise the vector and the item
are appended, the index is created on first use with the new vector's
dimension, and the vector is inserted into the index — an insertion that
raises (dimension mismatch) is caught by the same `except`, after the two
appends have already happened. -/
def MemoryManager.add (m : MemoryManager) (item : MemoryItem)
    (embed : EmbedOutcome) : MemoryManager :=
  match embed with
  | .failure => m
  | .ok d =>
    let m1 := { m with embeddings := m.embeddings ++ [d], data := m.data ++ [item] }
    match m1.indexDim with
    | none => { m1 with indexDim := some d, indexNtotal := m1.indexNtotal + 1 }
    | some dim =>
      if dim = d then { m1 with indexNtotal := m1.indexNtotal + 1 }
      else m1

/-! ## `rag.py` — text cleaning, chunking and document indexing -/

/-- The first substitution of `_clean_text` (`rag.py` line 41): every
character outside printable ASCII plus newline/carriage-return/tab becomes a
space. -/
def sanitizeChar (c : Char) : Char :=
  if (0x20 ≤ c.toNat ∧ c.toNat ≤ 0x7E) ∨ c = '\n' ∨ c = '\r' ∨ c = '\t' then c
  else ' '

/-- The second substitution of `_clean_text` (`rag.py` line 43): collapse
every run of spaces to a single space.  The flag records whether the
previous kept character was a space. -/
def collapseSpaces : Bool → List Char → List Char
  | _, [] => []
  | prevSpace, c :: rest =>
    if c = ' ' then
      if prevSpace then collapseSpaces true rest
      else ' ' :: collapseSpaces true rest
    else c :: collapseSpaces false rest

/-- `_clean_text` (`rag.py` lines 37–44): sanitize, collapse spaces,
strip surrounding whitespace. -/
def _clean_text (s : String) : String :=
  pyTrim (String.mk (collapseSpaces false (s.data.map sanitizeChar)))

/-- Python's `range(0, stop, step)` for `step > 0`; `step = 0` raises in
Python and is mapped to the empty list (never reached with the default
`size`/`overlap`). -/
def pyRange (stop step : Nat) : List Nat :=
  if step = 0 then []
  else (List.range ((stop + step - 1) / step)).map (fun k => k * step)

/-- The window start offsets `chunk_text` uses for a word list of length
`n`: `range(0, n, size - overlap)`. -/
def chunkStarts (n size overlap : Nat) : List Nat :=
  pyRange n (size - overlap)

/-- The word windows of `chunk_text`: `words[i : i + size]` at each start. -/
def chunkWindows (words : List String) (size overlap : Nat) : List (List String) :=
  (chunkStarts words.length size overlap).map (fun i => (words.drop i).take size)

/-- `chunk_text` (`rag.py` lines 56–66): clean, split into words, emit each
window joined with single spaces, keeping only chunks that are non-blank. -/
def chunk_text (text : String) (size : Nat := 512) (overlap : Nat := 40) : List String :=
  let words := pySplit (_clean_text text)
  ((pyRange words.length (size - overlap)).map
      (fun i => joinSpace ((words.drop i).take size))).filter
    (fun chunk => pyTrim chunk ≠ "")

/-- One persisted metadata record (`rag.py` lines 114–119). -/
structure ChunkMeta where
  title : String
  chunk : String
  chunk_id : String

/-- The persisted RAG store: the number of vectors in `index.bin` (0 when
the files do not exist yet) and the `metadata.json` records. -/
structure RagStore where
  ntotal : Nat
  metadata : List ChunkMeta

/-- The `{"status", "title", "chunks"}` result of `index_document`. -/
structure IndexResult where
  status : String
  title : String
  chunks : Nat

/-- `index_document` (`rag.py` lines 69–126): a duplicate title returns
`"already_indexed"` before anything is touched; chunkless content returns
`"empty"`; otherwise one vector and one metadata record per chunk are
appended and persisted.  The per-chunk embedding service calls are modelled
as succeeding with the index's fixed dimension (the service serves one fixed
model). -/
def index_document (store : RagStore) (title content : String) :
    RagStore × IndexResult :=
  if store.metadata.any (fun m => m.title = title) then
    (store, ⟨"already_indexed", title, 0⟩)
  else
    let chunks := chunk_text content
    if chunks.isEmpty then
      (store, ⟨"empty", title, 0⟩)
    else
      (⟨store.ntotal + chunks.length,
        store.metadata ++
          chunks.enum.map (fun p => ⟨title, p.2, title ++ "_" ++ toString p.1⟩)⟩,
       ⟨"indexed", title, chunks.length⟩)

/-- Whether a classified model response is a `FUNCTION_CALL` whose execution
succeeds. -/
def isSuccessCall : LlmStep → Bool
  | .functionCall _ (.success _) => true
  | _ => false

/-- A decision oracle that calls `search_emails` successfully on every
cycle, never producing a `FINAL_ANSWER`. -/
def stepsAllCalls : Nat → LlmStep :=
  fun _ =>
    .functionCall "search_emails" (.success (some (.obj [("emails", Json.arr [])])))

/-- A decision oracle whose first cycle's action fails with an unknown-tool
error. -/
def stepsFailUnknown : Nat → LlmStep :=
  fun _ => .functionCall "get_weather" (.failure "Unknown tool: get_weather")

/-- Like `stepsFailUnknown`, with a different failure message. -/
def stepsFailOther : Nat → LlmStep :=
  fun _ => .functionCall "get_weather" (.failure "Gmail API error: boom")

/-- A decision oracle with one successful call and then a failing action. -/
def stepsOneThenFail : Nat → LlmStep := fun i =>
  if i = 0 then
    .functionCall "search_emails" (.success (some (.obj [("emails", Json.arr [])])))
  else .functionCall "get_email_thread" (.failure "Unknown tool: get_weather")

/-- A 473-word probe text ("a a … a"): one stride (472 words) plus one
word, so `chunk_text` emits a first window of 473 words followed by a
1-word window. -/
def chunkProbeText : String := joinSpace (List.replicate 473 "a")

/-! ## Theorems -/

/-- **C6.** `check_free_slots` clamps each event to the 08:00–18:00 window,
drops degenerate intervals, sorts the rest by start time and returns the
complementary free intervals of a forward sweep from 08:00, closing at
06:00 PM, rendered in 12-hour form.  In particular a single 09:00–10:00
event yields free = [08:00 AM–09:00 AM, 10:00 AM–06:00 PM] with one busy
block carrying the event title, and an empty day yields
free = [08:00 AM–06:00 PM] and busy = []. -/
theorem C6_check_free_slots :
    (∀ (d : String) (events : List CalEvent),
      check_free_slots d events =
        [("date", Json.str d),
         ("busy", Json.arr ((sortBusy (busyBlocksOf events)).map
            (fun b => Json.obj
              [("start", .str (fmt12 b.1)), ("end", .str (fmt12 b.2.1)),
               ("event", .str b.2.2)]))),
         ("free", Json.arr ((sweepFree workDayStart (sortBusy (busyBlocksOf events))).map
            (fun p => Json.obj
              [("start", .str (fmt12 p.1)), ("end", .str (fmt12 p.2))])))]) ∧
    (check_free_slots "2026-03-05" [⟨some 540, some 600, "Standup"⟩] =
        [("date", Json.str "2026-03-05"),
         ("busy", Json.arr
            [Json.obj [("start", .str "09:00 AM"), ("end", .str "10:00 AM"),
                       ("event", .str "Standup")]]),
         ("free", Json.arr
            [Json.obj [("start", .str "08:00 AM"), ("end", .str "09:00 AM")],
             Json.obj [("start", .str "10:00 AM"), ("end", .str "06:00 PM")]])]) ∧
    (check_free_slots "2026-03-06" [] =
        [("date", Json.str "2026-03-06"),
         ("busy", Json.arr []),
         ("free", Json.arr
            [Json.obj [("start", .str "08:00 AM"), ("end", .str "06:00 PM")]])]) := by
  refine ⟨fun d events => rfl, rfl, rfl⟩

/-- **C4.** Every tool-server wrapper returns a well-shaped map for every
delegate outcome and never raises: the map carries an `"error"` key exactly
when the delegate raised, a `FileNotFoundError` is reported as its message
plus the operation's empty-result shape, and any other exception as
`"<Provider> API error: <message>"` plus the empty-result shape. -/
theorem C4_tool_boundary :
    (∀ o : Delegate (List Json), hasErrorKey (mcp_get_unread_emails_today o) = !o.isOk) ∧
    (∀ m : String, mcp_get_unread_emails_today (.fileNotFound m) =
      [("error", .str m), ("emails", .arr [])]) ∧
    (∀ m : String, mcp_get_unread_emails_today (.exn m) =
      [("error", .str ("Gmail API error: " ++ m)), ("emails", .arr [])]) ∧
    (∀ (sd ed : String) (o : Delegate (List Json)),
      hasErrorKey (mcp_get_emails_by_date_range sd ed o) = !o.isOk) ∧
    (∀ (sd ed m : String), mcp_get_emails_by_date_range sd ed (.fileNotFound m) =
      [("error", .str m), ("emails", .arr [])]) ∧
    (∀ (sd ed m : String), mcp_get_emails_by_date_range sd ed (.exn m) =
      [("error", .str ("Gmail API error: " ++ m)), ("emails", .arr [])]) ∧
    (∀ (q : String) (o : Delegate (List Json)),
      hasErrorKey (mcp_search_emails q o) = !o.isOk) ∧
    (∀ q m : String, mcp_search_emails q (.fileNotFound m) =
      [("error", .str m), ("emails", .arr [])]) ∧
    (∀ q m : String, mcp_search_emails q (.exn m) =
      [("error", .str ("Gmail API error: " ++ m)), ("emails", .arr [])]) ∧
    (∀ o : Delegate ThreadPayload, hasErrorKey (mcp_get_email_thread o) = !o.isOk) ∧
    (∀ m : String, mcp_get_email_thread (.fileNotFound m) =
      [("error", .str m), ("messages", .arr [])]) ∧
    (∀ m : String, mcp_get_email_thread (.exn m) =
      [("error", .str ("Gmail API error: " ++ m)), ("messages", .arr [])]) ∧
    (∀ o : Delegate AttachmentsPayload,
      hasErrorKey (mcp_get_email_attachments o) = !o.isOk) ∧
    (∀ m : String, mcp_get_email_attachments (.fileNotFound m) =
      [("error", .str m), ("attachments", .arr [])]) ∧
    (∀ m : String, mcp_get_email_attachments (.exn m) =
      [("error", .str ("Gmail API error: " ++ m)), ("attachments", .arr [])]) ∧
    (∀ (a s : String) (o : Delegate String),
      hasErrorKey (mcp_send_email a s o) = !o.isOk) ∧
    (∀ a s m : String, mcp_send_email a s (.fileNotFound m) =
      [("error", .str m), ("status", .str "failed")]) ∧
    (∀ a s m : String, mcp_send_email a s (.exn m) =
      [("error", .str ("Gmail API error: " ++ m)), ("status", .str "failed")]) ∧
    (∀ o : Delegate (List Json), hasErrorKey (mcp_get_todays_events o) = !o.isOk) ∧
    (∀ m : String, mcp_get_todays_events (.fileNotFound m) =
      [("error", .str m), ("events", .arr [])]) ∧
    (∀ m : String, mcp_get_todays_events (.exn m) =
      [("error", .str ("Calendar API error: " ++ m)), ("events", .arr [])]) ∧
    (∀ o : Delegate (List Json), hasErrorKey (mcp_get_events_for_date o) = !o.isOk) ∧
    (∀ m : String, mcp_get_events_for_date (.fileNotFound m) =
      [("error", .str m), ("events", .arr [])]) ∧
    (∀ m : String, mcp_get_events_for_date (.exn m) =
      [("error", .str ("Calendar API error: " ++ m)), ("events", .arr [])]) ∧
    (∀ (d : String) (o : Delegate (List CalEvent)),
      hasErrorKey (mcp_check_free_slots d o) = !o.isOk) ∧
    (∀ d m : String, mcp_check_free_slots d (.fileNotFound m) =
      [("error", .str m), ("date", .str d), ("busy", .arr []), ("free", .arr [])]) ∧
    (∀ d m : String, mcp_check_free_slots d (.exn m) =
      [("error", .str ("Calendar API error: " ++ m)), ("date", .str d),
       ("busy", .arr []), ("free", .arr [])]) ∧
    (∀ (d st et : String) (o : Delegate CreatedPayload),
      hasErrorKey (mcp_create_event d st et o) = !o.isOk) ∧
    (∀ d st et m : String, mcp_create_event d st et (.fileNotFound m) =
      [("error", .str m), ("status", .str "failed")]) ∧
    (∀ d st et m : String, mcp_create_event d st et (.exn m) =
      [("error", .str ("Calendar API error: " ++ m)), ("status", .str "failed")]) := by
  refine ⟨fun o => by cases o <;> rfl,
          fun m => rfl, fun m => rfl,
          fun sd ed o => by cases o <;> rfl,
          fun sd ed m => rfl, fun sd ed m => rfl,
          fun q o => by cases o <;> rfl,
          fun q m => rfl, fun q m => rfl,
          fun o => by cases o <;> rfl,
          fun m => rfl, fun m => rfl,
          fun o => by cases o <;> rfl,
          fun m => rfl, fun m => rfl,
          fun a s o => by cases o <;> rfl,
          fun a s m => rfl, fun a s m => rfl,
          fun o => by cases o <;> rfl,
          fun m => rfl, fun m => rfl,
          fun o => by cases o <;> rfl,
          fun m => rfl, fun m => rfl,
          fun d o => ?_,
          fun d m => rfl, fun d m => rfl,
          fun d st et o => by cases o <;> rfl,
          fun d st et m => rfl, fun d st et m => rfl⟩
  cases o with
  | ok events =>
    simp only [mcp_check_free_slots, Delegate.isOk, Bool.not_true, check_free_slots,
      hasErrorKey]
    rfl
  | fileNotFound m => rfl
  | exn m => rfl

/-- **C5.** The Action Executor's `parse_function_call` binds positional
values to declared parameters left-to-right with type coercion — declared
types `[integer, number]` with values `["3", "2.5"]` bind to the integer `3`
and the float `2.5`, not strings — and once the positional values are
exhausted, every remaining declared parameter whose type is not
`array`/`object` is skipped without error. -/
theorem C5_parse_positional :
    (parse_function_call (fun _ => none) [⟨"f", [("a", "integer"), ("b", "number")]⟩] []
        "FUNCTION_CALL: f|3|2.5" =
      .ok ("f", [("a", PyVal.pyInt 3), ("b", PyVal.pyFloat 25 1)])) ∧
    (∀ (decode : String → Option Json) (tr : ToolResults) (pname : String)
        (rest : List (String × String)) (v : String) (params : List String) (n : Int),
      pyParseInt v = some n →
        bindArgsAction decode tr ((pname, "integer") :: rest) (v :: params) =
          (bindArgsAction decode tr rest params).map
            (fun args => (pname, PyVal.pyInt n) :: args)) ∧
    (∀ (decode : String → Option Json) (tr : ToolResults) (pname : String)
        (rest : List (String × String)) (v : String) (params : List String)
        (m : Int) (k : Nat),
      pyParseFloat v = some (m, k) →
        bindArgsAction decode tr ((pname, "number") :: rest) (v :: params) =
          (bindArgsAction decode tr rest params).map
            (fun args => (pname, PyVal.pyFloat m k) :: args)) ∧
    (∀ (decode : String → Option Json) (tr : ToolResults)
        (props : List (String × String)),
      (∀ p ∈ props, p.2 ≠ "array" ∧ p.2 ≠ "object") →
        bindArgsAction decode tr props [] = .ok []) := by
  refine ⟨rfl, ?_, ?_, ?_⟩
  · intro decode tr pname rest v params n h
    simp only [bindArgsAction, List.isEmpty_cons, Bool.false_eq_true, if_false, h]
    rfl
  · intro decode tr pname rest v params m k h
    simp only [bindArgsAction, List.isEmpty_cons, Bool.false_eq_true, if_false, h]
    rfl
  · intro decode tr props h
    induction props with
    | nil => rfl
    | cons p rest ih =>
      obtain ⟨pname, ptype⟩ := p
      have hp := h (pname, ptype) (List.mem_cons_self _ _)
      simp only [bindArgsAction, List.isEmpty_nil, if_true, hp.1, hp.2, or_self,
        if_false]
      exact ih (fun p hmem => h p (List.mem_cons_of_mem _ hmem))

/-- Witness for C5: the skip rule evaluated at a concrete two-parameter
schema with no remaining values, and the coercion rules at `"3"`/`"2.5"`. -/
theorem C5_parse_positional_witness :
    bindArgsAction (fun _ => none) [] [("x", "string"), ("y", "integer")] [] = .ok [] ∧
    bindArgsAction (fun _ => none) [] [("a", "integer")] ["3"] =
      .ok [("a", PyVal.pyInt 3)] ∧
    bindArgsAction (fun _ => none) [] [("b", "number")] ["2.5"] =
      .ok [("b", PyVal.pyFloat 25 1)] := by
  refine ⟨C5_parse_positional.2.2.2 (fun _ => none) [] _ (by decide), ?_, ?_⟩
  · rw [C5_parse_positional.2.1 (fun _ => none) [] "a" [] "3" [] 3 (by decide)]
    rfl
  · rw [C5_parse_positional.2.2.1 (fun _ => none) [] "b" [] "2.5" [] 25 1 (by decide)]
    rfl

/-- **C10.** In the orchestrator the HTTP server actually imports
(`agent.py`'s `handle_chat`), a `FUNCTION_CALL` line supplying fewer
positional values than the declared parameters makes the binding of the
first unfilled non-`array`/`object` parameter raise
`"Not enough parameters provided for <tool>"` rather than skipping it. -/
theorem C10_agent_missing_params :
    (∀ (fn : String) (tr : ToolResults) (pname ptype : String)
        (rest : List (String × String)),
      ptype ≠ "array" → ptype ≠ "object" →
        bindArgsAgent fn tr ((pname, ptype) :: rest) [] =
          .error ("Not enough parameters provided for " ++ fn)) ∧
    (bindArgsAgent "create_event" []
        [("title", "string"), ("date", "string"), ("start_time", "string"),
         ("end_time", "string"), ("attendees", "string")] ["Team sync"] =
      .error "Not enough parameters provided for create_event") := by
  refine ⟨?_, rfl⟩
  intro fn tr pname ptype rest h1 h2
  simp only [bindArgsAgent, List.isEmpty_nil, if_true, h1, h2, or_self, if_false]

/-- Witness for C10: the error raised at a concrete one-parameter schema
with no positional values. -/
theorem C10_agent_missing_params_witness :
    bindArgsAgent "get_events_for_date" [] [("date", "string")] [] =
      .error "Not enough parameters provided for get_events_for_date" :=
  C10_agent_missing_params.1 "get_events_for_date" [] "date" "string" []
    (by decide) (by decide)

/-- `getLast?` of a cons in terms of the tail's `getLast?`. -/
theorem getLast?_cons_elim {α : Type} (x : α) (l : List α) :
    (x :: l).getLast? = l.getLast?.elim (some x) some := by
  induction l generalizing x with
  | nil => rfl
  | cons y l ih =>
    rw [List.getLast?_cons_cons, ih y]
    cases h : l.getLast? <;> rfl

/-- A left fold that overwrites its accumulator with every element whose key
satisfies `P` computes the last satisfying key. -/
theorem foldl_lastPresent (P : String → Bool) :
    ∀ (l : List (String × String)) (init : Option String),
      l.foldl (fun acc p => if P p.1 then some p.1 else acc) init
        = (((l.map Prod.fst).filter P).getLast?).elim init some := by
  intro l
  induction l with
  | nil => intro init; rfl
  | cons a l ih =>
    intro init
    rw [List.foldl_cons, ih, List.map_cons, List.filter_cons]
    cases hPa : P a.1 with
    | false => simp
    | true =>
      simp only [if_true, getLast?_cons_elim]
      cases h : ((l.map Prod.fst).filter P).getLast? <;> rfl

/-- The selection loop of `_build_context` picks the last name of the
`TOOL_TO_CONTEXT` enumeration present in the results map. -/
theorem lastContextTool_spec (tr : ToolResults) :
    lastContextTool tr =
      ((TOOL_TO_CONTEXT.map Prod.fst).filter (fun n => tr.hasKey n)).getLast? := by
  unfold lastContextTool
  rw [foldl_lastPresent]
  cases h : ((TOOL_TO_CONTEXT.map Prod.fst).filter (fun n => tr.hasKey n)).getLast? <;>
    rfl

/-- A key with a stored value is present. -/
theorem ToolResults.hasKey_of_getKey :
    ∀ (tr : ToolResults) (n : String) (v : Option Json),
      tr.getKey n = some v → tr.hasKey n = true := by
  intro tr n v
  induction tr with
  | nil => intro h; simp [ToolResults.getKey] at h
  | cons p rest ih =>
    obtain ⟨k, w⟩ := p
    intro h
    by_cases hk : k = n
    · simp [ToolResults.hasKey, hk]
    · rw [ToolResults.getKey, if_neg hk] at h
      have := ih h
      simp only [ToolResults.hasKey, List.any_cons] at this ⊢
      simp [this]

/-- **C2.** `_build_context` selects the last tool name of the fixed
enumeration order that is present in the per-turn tool-results map —
independent of call order, since only key membership matters; a map holding
both `get_unread_emails_today` and `search_emails` (and none of the three
later names) gets `search_emails`'s `email_list` context with the `emails`
projection of its result; no enumerated name present gives no context. -/
theorem C2_build_context :
    (∀ tr : ToolResults,
      lastContextTool tr =
        ((TOOL_TO_CONTEXT.map Prod.fst).filter (fun n => tr.hasKey n)).getLast?) ∧
    (∀ tr tr' : ToolResults, (∀ n, tr.hasKey n = tr'.hasKey n) →
      lastContextTool tr = lastContextTool tr') ∧
    (∀ tr : ToolResults, (∀ p ∈ TOOL_TO_CONTEXT, tr.hasKey p.1 = false) →
      _build_context tr = .ok none) ∧
    (∀ (tr : ToolResults) (fields : List (String × Json)),
      tr.hasKey "get_unread_emails_today" = true →
      tr.getKey "search_emails" = some (some (.obj fields)) →
      tr.hasKey "get_email_thread" = false →
      tr.hasKey "get_email_attachments" = false →
      tr.hasKey "send_email" = false →
      _build_context tr = .ok (some ⟨"email_list",
        (Json.lookupField fields "emails").getD (.arr [])⟩)) := by
  refine ⟨lastContextTool_spec, ?_, ?_, ?_⟩
  · intro tr tr' h
    rw [lastContextTool_spec, lastContextTool_spec]
    congr 1
    exact List.filter_congr (fun n _ => h n)
  · intro tr h
    have h0 : lastContextTool tr = none := by
      rw [lastContextTool_spec]
      have hnil : (TOOL_TO_CONTEXT.map Prod.fst).filter (fun n => tr.hasKey n) = [] := by
        rw [List.filter_eq_nil_iff]
        intro a ha
        obtain ⟨p, hp, rfl⟩ := List.mem_map.mp ha
        simp [h p hp]
      rw [hnil]; rfl
    simp [_build_context, h0]
  · intro tr fields hunread hget hthread hattach hsend
    have hsearch : tr.hasKey "search_emails" = true :=
      ToolResults.hasKey_of_getKey tr _ _ hget
    have hlast : lastContextTool tr = some "search_emails" := by
      rw [lastContextTool_spec]
      have hsplit : TOOL_TO_CONTEXT.map Prod.fst =
          ["get_todays_events", "get_events_for_date", "check_free_slots",
           "create_event", "get_unread_emails_today", "get_emails_by_date_range"] ++
          ["search_emails", "get_email_thread", "get_email_attachments",
           "send_email"] := rfl
      rw [hsplit, List.filter_append]
      have htail :
          (["search_emails", "get_email_thread", "get_email_attachments",
            "send_email"].filter (fun n => tr.hasKey n)) = ["search_emails"] := by
        simp [List.filter, hsearch, hthread, hattach, hsend]
      rw [htail, List.getLast?_concat]
    have hctx : (List.lookup "search_emails" TOOL_TO_CONTEXT).getD "" = "email_list" := rfl
    simp [_build_context, hlast, hget, hctx, Json.pyGet]
    rfl

/-- Witness for C2: a map with no recognized tool yields no context; a map
holding both `get_unread_emails_today` and `search_emails` yields
`search_emails`'s email-list context. -/
theorem C2_build_context_witness :
    _build_context [("weather_tool", some (Json.obj []))] = .ok none ∧
    _build_context
        [("get_unread_emails_today", some (Json.obj [("emails", Json.arr [])])),
         ("search_emails", some (Json.obj [("emails", Json.arr [Json.str "m1"])]))] =
      .ok (some ⟨"email_list", Json.arr [Json.str "m1"]⟩) := by
  constructor
  · exact C2_build_context.2.2.1 _ (by decide)
  · exact C2_build_context.2.2.2
      [("get_unread_emails_today", some (Json.obj [("emails", Json.arr [])])),
       ("search_emails", some (Json.obj [("emails", Json.arr [Json.str "m1"])]))]
      [("emails", Json.arr [Json.str "m1"])] (by decide) rfl (by decide) (by decide)
      (by decide)

/-- An all-success run of the orchestrator loop burns all its fuel and falls
out through the iteration-exhausted return. -/
theorem chatLoop_success_run :
    ∀ (fuel : Nat) (steps : Nat → LlmStep) (st : TurnState),
      (∀ i, st.iteration ≤ i → i < st.iteration + fuel →
        isSuccessCall (steps i) = true) →
      (chatLoop steps fuel st).1.iteration = st.iteration + fuel ∧
      (chatLoop steps fuel st).2 =
        finishTurn exhaustedReply (chatLoop steps fuel st).1.tool_results := by
  intro fuel
  induction fuel with
  | zero => intro steps st _; exact ⟨rfl, rfl⟩
  | succ fuel ih =>
    intro steps st h
    have hs : isSuccessCall (steps st.iteration) = true :=
      h st.iteration (Nat.le_refl _) (by omega)
    cases hstep : steps st.iteration with
    | llmFailure => rw [hstep] at hs; exact absurd hs (by simp [isSuccessCall])
    | finalAnswer t => rw [hstep] at hs; exact absurd hs (by simp [isSuccessCall])
    | other t => rw [hstep] at hs; exact absurd hs (by simp [isSuccessCall])
    | functionCall name outcome =>
      cases outcome with
      | failure msg => rw [hstep] at hs; exact absurd hs (by simp [isSuccessCall])
      | success res =>
        have hred : chatLoop steps (fuel + 1) st =
            chatLoop steps fuel
              { iteration := st.iteration + 1,
                tool_results := st.tool_results.setKey name res,
                log := st.log ++ [LogEntry.step st.iteration name res] } := by
          simp only [chatLoop, hstep]
        rw [hred]
        have := ih steps
          { iteration := st.iteration + 1,
            tool_results := st.tool_results.setKey name res,
            log := st.log ++ [LogEntry.step st.iteration name res] }
          (by intro i h0 h1; dsimp only at h0 h1; exact h i (by omega) (by omega))
        refine ⟨?_, this.2⟩
        rw [this.1]; dsimp only; omega

/-- A run whose first `k` decisions are successful calls and whose `k`-th
decision's action fails stops at once: the loop `break`s, logs the error,
and returns through the same exhausted-return path. -/
theorem chatLoop_failure_run :
    ∀ (k fuel : Nat) (steps : Nat → LlmStep) (st : TurnState) (name msg : String),
      k < fuel →
      (∀ i, st.iteration ≤ i → i < st.iteration + k →
        isSuccessCall (steps i) = true) →
      steps (st.iteration + k) = .functionCall name (.failure msg) →
      (chatLoop steps fuel st).1.iteration = st.iteration + k ∧
      (chatLoop steps fuel st).2 =
        finishTurn exhaustedReply (chatLoop steps fuel st).1.tool_results ∧
      (chatLoop steps fuel st).1.log.getLast? =
        some (.failure (st.iteration + k) msg) := by
  intro k
  induction k with
  | zero =>
    intro fuel steps st name msg hk _ hfail
    cases fuel with
    | zero => omega
    | succ fuel =>
      rw [Nat.add_zero] at hfail
      have hred : chatLoop steps (fuel + 1) st =
          ({ st with log := st.log ++ [LogEntry.failure st.iteration msg] },
           finishTurn exhaustedReply st.tool_results) := by
        simp only [chatLoop, hfail]
      rw [hred]
      exact ⟨by simp, rfl, by simp [List.getLast?_concat]⟩
  | succ k ih =>
    intro fuel steps st name msg hk hpre hfail
    cases fuel with
    | zero => omega
    | succ fuel =>
      have hs : isSuccessCall (steps st.iteration) = true :=
        hpre st.iteration (Nat.le_refl _) (by omega)
      cases hstep : steps st.iteration with
      | llmFailure => rw [hstep] at hs; exact absurd hs (by simp [isSuccessCall])
      | finalAnswer t => rw [hstep] at hs; exact absurd hs (by simp [isSuccessCall])
      | other t => rw [hstep] at hs; exact absurd hs (by simp [isSuccessCall])
      | functionCall nm outcome =>
        cases outcome with
        | failure m => rw [hstep] at hs; exact absurd hs (by simp [isSuccessCall])
        | success res =>
          have hred : chatLoop steps (fuel + 1) st =
              chatLoop steps fuel
                { iteration := st.iteration + 1,
                  tool_results := st.tool_results.setKey nm res,
                  log := st.log ++ [LogEntry.step st.iteration nm res] } := by
            simp only [chatLoop, hstep]
          rw [hred]
          have := ih fuel steps
            { iteration := st.iteration + 1,
              tool_results := st.tool_results.setKey nm res,
              log := st.log ++ [LogEntry.step st.iteration nm res] }
            name msg (by omega)
            (by intro i h0 h1; dsimp only at h0 h1; exact hpre i (by omega) (by omega))
            (by dsimp only; rw [show st.iteration + 1 + k = st.iteration + (k + 1) by omega]
                exact hfail)
          refine ⟨?_, this.2.1, ?_⟩
          · rw [this.1]; dsimp only; omega
          · rw [show st.iteration + (k + 1) = st.iteration + 1 + k from by omega,
              this.2.2]

/-- **C1 (amended).** A turn whose decision step returns a successfully
executing `FUNCTION_CALL` on every cycle stops after exactly
`max_iterations = 5` cycles and returns through the iteration-exhausted
path: the fixed reply "Sorry, I couldn't complete your request. Please try
again." together with the context built from the gathered tool results. -/
theorem C1_iteration_cap (steps : Nat → LlmStep)
    (h : ∀ i, i < max_iterations → isSuccessCall (steps i) = true) :
    (handle_chat_run steps).1.iteration = max_iterations ∧
    (handle_chat_run steps).2 =
      finishTurn exhaustedReply (handle_chat_run steps).1.tool_results := by
  have := chatLoop_success_run max_iterations steps ⟨0, [], []⟩
    (by intro i h0 h1; exact h i (by simpa using h1))
  simpa [handle_chat_run] using this

/-- Witness for C1: the always-calling oracle evaluated concretely. -/
theorem C1_iteration_cap_witness :
    (handle_chat_run stepsAllCalls).1.iteration = max_iterations ∧
    (handle_chat_run stepsAllCalls).2 =
      finishTurn exhaustedReply (handle_chat_run stepsAllCalls).1.tool_results :=
  C1_iteration_cap stepsAllCalls (by decide)

/-- **C1 counterexample.** Under an always-`FUNCTION_CALL` decision oracle
the orchestrator stops after 5 cycles — not 10 — and its reply is
"Sorry, I couldn't complete your request. Please try again.", not the
apology text the claim states. -/
theorem C1_counterexample :
    (handle_chat_run stepsAllCalls).1.iteration = 5 ∧
    (handle_chat_run stepsAllCalls).2.reply =
      "Sorry, I couldn't complete your request. Please try again." ∧
    (handle_chat_run stepsAllCalls).2.reply ≠
      "I wasn't able to complete your request within the step limit. Please try a simpler query." := by
  exact ⟨rfl, rfl, by decide⟩

/-- **C3 (amended).** When the `k`-th cycle's `FUNCTION_CALL` action fails
(after `k` successful cycles), the orchestrator terminates immediately —
the loop counter stays at `k` — records the failure description in its
internal per-iteration log, and returns the same fixed generic apology
reply as the exhausted case, with context built from the tool results
gathered before the failure. -/
theorem C3_failure_stops_turn (steps : Nat → LlmStep) (k : Nat) (name msg : String)
    (hk : k < max_iterations)
    (hpre : ∀ i, i < k → isSuccessCall (steps i) = true)
    (hfail : steps k = .functionCall name (.failure msg)) :
    (handle_chat_run steps).1.iteration = k ∧
    (handle_chat_run steps).2 =
      finishTurn exhaustedReply (handle_chat_run steps).1.tool_results ∧
    (handle_chat_run steps).1.log.getLast? = some (.failure k msg) := by
  have := chatLoop_failure_run k max_iterations steps ⟨0, [], []⟩ name msg hk
    (by intro i h0 h1; exact hpre i (by simpa using h1)) (by simpa using hfail)
  simpa [handle_chat_run] using this

/-- Witness for C3: one successful `search_emails` call, then a failing
action on the next cycle. -/
theorem C3_failure_stops_turn_witness :
    (handle_chat_run stepsOneThenFail).1.iteration = 1 ∧
    (handle_chat_run stepsOneThenFail).2 =
      finishTurn exhaustedReply (handle_chat_run stepsOneThenFail).1.tool_results ∧
    (handle_chat_run stepsOneThenFail).1.log.getLast? =
      some (.failure 1 "Unknown tool: get_weather") :=
  C3_failure_stops_turn stepsOneThenFail 1 "get_email_thread"
    "Unknown tool: get_weather" (by decide) (by decide) rfl

/-- **C3 counterexample.** A failing action makes the turn return the fixed
generic apology, not a reply describing the failure: two runs failing with
different error messages return the identical generic reply. -/
theorem C3_counterexample :
    (handle_chat_run stepsFailUnknown).2.reply =
      "Sorry, I couldn't complete your request. Please try again." ∧
    (handle_chat_run stepsFailOther).2.reply =
      (handle_chat_run stepsFailUnknown).2.reply := by
  exact ⟨rfl, rfl⟩

/-- **C7 counterexample.** An `add` whose embedding succeeds with a
dimension different from the index's (here: a 3-dimensional first vector,
then a 4-dimensional second one) appends to the record list but not to the
index, so the two stores end up with different sizes. -/
theorem C7_counterexample :
    ((MemoryManager.init.add { text := "a" } (.ok 3)).add
        { text := "b" } (.ok 4)).data.length ≠
      ((MemoryManager.init.add { text := "a" } (.ok 3)).add
        { text := "b" } (.ok 4)).indexNtotal := by
  decide

/-- **C7 (amended).** `add` leaves both stores unchanged when the embedding
step raises, and appends to both together when the index insertion succeeds
(the index is fresh or the vector's dimension matches); but when the
embedding succeeds with a mismatched dimension, the index insertion raises
after the appends, leaving the data list one entry longer than the index. -/
theorem C7_add_invariant :
    (∀ (m : MemoryManager) (item : MemoryItem), m.add item .failure = m) ∧
    (∀ (m : MemoryManager) (item : MemoryItem) (d : Nat),
      m.data.length = m.indexNtotal →
      (m.indexDim = none ∨ m.indexDim = some d) →
      (m.add item (.ok d)).data.length = (m.add item (.ok d)).indexNtotal) ∧
    (∀ (m : MemoryManager) (item : MemoryItem) (d dim : Nat),
      m.indexDim = some dim → dim ≠ d →
      (m.add item (.ok d)).data.length = m.data.length + 1 ∧
      (m.add item (.ok d)).indexNtotal = m.indexNtotal) := by
  refine ⟨fun m item => rfl, ?_, ?_⟩
  · intro m item d hinv hdim
    cases hdim with
    | inl h => simp [MemoryManager.add, h, hinv]
    | inr h => simp [MemoryManager.add, h, hinv]
  · intro m item d dim hdim hne
    simp [MemoryManager.add, hdim, hne]

/-- Witness for C7's amended statement: a matching add keeps the sizes
equal; a mismatched add grows only the data list. -/
theorem C7_add_invariant_witness :
    ((MemoryManager.init.add { text := "q" } (.ok 3)).data.length =
      (MemoryManager.init.add { text := "q" } (.ok 3)).indexNtotal) ∧
    (((MemoryManager.init.add { text := "q" } (.ok 3)).add
        { text := "r" } (.ok 4)).data.length =
      (MemoryManager.init.add { text := "q" } (.ok 3)).data.length + 1 ∧
     ((MemoryManager.init.add { text := "q" } (.ok 3)).add
        { text := "r" } (.ok 4)).indexNtotal =
      (MemoryManager.init.add { text := "q" } (.ok 3)).indexNtotal) :=
  ⟨C7_add_invariant.2.1 MemoryManager.init { text := "q" } 3 rfl (Or.inl rfl),
   C7_add_invariant.2.2 (MemoryManager.init.add { text := "q" } (.ok 3))
     { text := "r" } 4 3 rfl (by decide)⟩

/-- A duplicate title makes `index_document` a no-op returning
`"already_indexed"`. -/
theorem index_document_dup (store : RagStore) (title content : String)
    (h : store.metadata.any (fun m => m.title = title) = true) :
    index_document store title content = (store, ⟨"already_indexed", title, 0⟩) := by
  simp [index_document, h]

/-- After an `index_document` call on chunk-producing content, the title is
present in the persisted metadata. -/
theorem index_document_titled (store : RagStore) (title content : String)
    (hne : chunk_text content ≠ []) :
    (index_document store title content).1.metadata.any
      (fun m => m.title = title) = true := by
  by_cases h : store.metadata.any (fun m => m.title = title) = true
  · rw [index_document_dup store title content h]; exact h
  · have hb : store.metadata.any (fun m => m.title = title) = false := by
      cases hx : store.metadata.any (fun m => m.title = title) with
      | false => rfl
      | true => exact absurd hx h
    obtain ⟨c, cs, hc⟩ := List.exists_cons_of_ne_nil hne
    simp [index_document, hb, hc, List.any_append]
    have hmem : (0, c) ∈ (c :: cs).enum := by
      rw [show (c :: cs).enum = (0, c) :: List.enumFrom 1 cs from rfl]
      exact List.mem_cons_self _ _
    exact ⟨⟨title, c, title ++ "_" ++ toString 0⟩, ⟨0, c, hmem, rfl⟩, rfl⟩

/-- **C8.** `index_document` is idempotent per title: a title already in
the persisted metadata returns `"already_indexed"` with 0 chunks and leaves
the store untouched; repeating a call with the same title and content
leaves the persisted store exactly as after the first call (and, when the
first call indexed anything, the repeat returns `"already_indexed"` with
0 chunks). -/
theorem C8_index_document_idempotent :
    (∀ (store : RagStore) (title content : String),
      store.metadata.any (fun m => m.title = title) = true →
      index_document store title content = (store, ⟨"already_indexed", title, 0⟩)) ∧
    (∀ (store : RagStore) (title content : String),
      chunk_text content ≠ [] →
      (index_document (index_document store title content).1 title content).2 =
        ⟨"already_indexed", title, 0⟩) ∧
    (∀ (store : RagStore) (title content : String),
      (index_document (index_document store title content).1 title content).1 =
        (index_document store title content).1) := by
  refine ⟨index_document_dup, ?_, ?_⟩
  · intro store title content hne
    rw [index_document_dup _ title content (index_document_titled store title content hne)]
  · intro store title content
    by_cases hne : chunk_text content = []
    · by_cases h : store.metadata.any (fun m => m.title = title) = true
      · rw [index_document_dup _ _ _ h]
        rw [index_document_dup _ _ _ h]
      · have hb : store.metadata.any (fun m => m.title = title) = false := by
          cases hx : store.metadata.any (fun m => m.title = title) with
          | false => rfl
          | true => exact absurd hx h
        simp [index_document, hb, hne]
    · rw [index_document_dup _ title content
        (index_document_titled store title content hne)]

/-- Witness for C8: a store already holding the title is untouched; a fresh
store indexes once and the repeated call is a no-op. -/
theorem C8_index_document_idempotent_witness :
    index_document ⟨1, [⟨"doc", "hello world", "doc_0"⟩]⟩ "doc" "hello world" =
      (⟨1, [⟨"doc", "hello world", "doc_0"⟩]⟩, ⟨"already_indexed", "doc", 0⟩) ∧
    (index_document (index_document ⟨0, []⟩ "doc" "hello world").1 "doc"
        "hello world").2 = ⟨"already_indexed", "doc", 0⟩ :=
  ⟨C8_index_document_idempotent.1 ⟨1, [⟨"doc", "hello world", "doc_0"⟩]⟩ "doc"
      "hello world" (by decide),
   C8_index_document_idempotent.2.1 ⟨0, []⟩ "doc" "hello world" (by decide)⟩

set_option maxRecDepth 100000 in
/-- **C9 counterexample.** On a 473-word text, `chunk_text` with size 512
and overlap 40 emits two chunks, and the first — a non-last chunk — has
only 473 < 512 words: it is not true that only the last window may be
shorter than 512 words. -/
theorem C9_counterexample :
    (chunk_text chunkProbeText 512 40).length = 2 ∧
    (pySplit ((chunk_text chunkProbeText 512 40).headD "")).length = 473 ∧
    ¬(∀ c ∈ (chunk_text chunkProbeText 512 40).dropLast,
        (pySplit c).length = 512) := by
  refine ⟨by decide, by decide, by decide⟩

/-- The window starts of `chunk_text`'s default geometry, explicitly. -/
theorem chunkStarts_eq (n : Nat) :
    chunkStarts n 512 40 = (List.range ((n + 471) / 472)).map (fun k => k * 472) := by
  show pyRange n (512 - 40) = _
  norm_num [pyRange]

/-- The `k`-th window start is `k * 472`. -/
theorem chunkStarts_getD (n k : Nat) (hk : k < (chunkStarts n 512 40).length) :
    (chunkStarts n 512 40).getD k 0 = k * 472 := by
  rw [chunkStarts_eq] at hk ⊢
  rw [List.length_map, List.length_range] at hk
  simp [List.getD_eq_getElem?_getD, List.getElem?_map, List.getElem?_range, hk]

/-- Every window start lies strictly inside the word list. -/
theorem chunkStarts_mem_lt (n i : Nat) (hi : i ∈ chunkStarts n 512 40) : i < n := by
  rw [chunkStarts_eq] at hi
  obtain ⟨k, hk, rfl⟩ := List.mem_map.mp hi
  rw [List.mem_range] at hk
  have hdm : ((n + 471) / 472) * 472 ≤ n + 471 := Nat.div_mul_le_self _ _
  omega

/-- **C9 (amended).** `chunk_text` with size 512 / overlap 40 splits the
cleaned text into words and emits the word windows joined with single
spaces; every window has at most 512 words, consecutive window starts are
exactly 472 words apart, every window (hence every emitted chunk) is
non-empty, and every window starting at least 512 words before the end of
the word list has exactly 512 words — so a window within 511 words of the
end (at most the last two, not only the last) may be shorter. -/
theorem C9_chunk_windows :
    (∀ (text : String) (size overlap : Nat),
      chunk_text text size overlap =
        ((chunkWindows (pySplit (_clean_text text)) size overlap).map joinSpace).filter
          (fun chunk => pyTrim chunk ≠ "")) ∧
    (∀ (ws : List String), ∀ w ∈ chunkWindows ws 512 40, w.length ≤ 512) ∧
    (∀ (ws : List String) (k : Nat),
      k + 1 < (chunkStarts ws.length 512 40).length →
      (chunkStarts ws.length 512 40).getD (k + 1) 0 =
        (chunkStarts ws.length 512 40).getD k 0 + 472) ∧
    (∀ (ws : List String), ∀ w ∈ chunkWindows ws 512 40, w ≠ []) ∧
    (∀ (text : String) (size overlap : Nat),
      ∀ c ∈ chunk_text text size overlap, c ≠ "") ∧
    (∀ (ws : List String) (k : Nat), k < (chunkWindows ws 512 40).length →
      472 * k + 512 ≤ ws.length →
      ((chunkWindows ws 512 40).getD k []).length = 512) := by
  refine ⟨?_, ?_, ?_, ?_, ?_, ?_⟩
  · intro text size overlap
    rw [chunkWindows, List.map_map]
    rfl
  · intro ws w hw
    obtain ⟨i, hi, rfl⟩ := List.mem_map.mp hw
    exact List.length_take_le _ _
  · intro ws k hk
    rw [chunkStarts_getD ws.length (k + 1) hk,
        chunkStarts_getD ws.length k (by omega)]
    omega
  · intro ws w hw
    obtain ⟨i, hi, rfl⟩ := List.mem_map.mp hw
    have hlt := chunkStarts_mem_lt ws.length i hi
    apply List.ne_nil_of_length_pos
    rw [List.length_take, List.length_drop]
    omega
  · intro text size overlap c hc heq
    simp only [chunk_text] at hc
    rw [heq] at hc
    exact absurd (List.mem_filter.mp hc).2 (by decide)
  · intro ws k hk hlen
    have hkl : k < (chunkStarts ws.length 512 40).length := by
      rw [chunkWindows, List.length_map] at hk
      exact hk
    have hsome : (chunkStarts ws.length 512 40)[k]? = some (k * 472) := by
      rw [chunkStarts_eq]
      rw [chunkStarts_eq, List.length_map, List.length_range] at hkl
      simp [List.getElem?_map, List.getElem?_range, hkl]
    rw [chunkWindows, List.getD_eq_getElem?_getD, List.getElem?_map, hsome]
    simp only [Option.map_some', Option.getD_some]
    rw [List.length_take, List.length_drop]
    omega

set_option maxRecDepth 100000 in
/-- Witness for C9's amended statement, at a 1000-word list and the
two-word text "hello world". -/
theorem C9_chunk_windows_witness :
    (List.replicate 512 "w").length ≤ 512 ∧
    (chunkStarts 1000 512 40).getD 1 0 = (chunkStarts 1000 512 40).getD 0 0 + 472 ∧
    List.replicate 512 "w" ≠ ([] : List String) ∧
    "hello world" ≠ "" ∧
    ((chunkWindows (List.replicate 1000 "w") 512 40).getD 1 []).length = 512 := by
  refine ⟨C9_chunk_windows.2.1 (List.replicate 1000 "w") _ ?_,
          C9_chunk_windows.2.2.1 (List.replicate 1000 "w") 0 ?_,
          C9_chunk_windows.2.2.2.1 (List.replicate 1000 "w") _ ?_,
          C9_chunk_windows.2.2.2.2.1 "hello world" 512 40 "hello world" ?_,
          C9_chunk_windows.2.2.2.2.2 (List.replicate 1000 "w") 1 ?_ ?_⟩
  · decide
  · decide
  · decide
  · decide
  · decide
  · decide
